import Mathlib

set_option maxRecDepth 4000

/-!
Verification of the VIC-20 emulator core (TypeScript sources) against its
natural-language specification.  The definitions below are a shallow
embedding of the relevant source functions: bytes and words are `Nat`
with explicit masking, the 64 KiB byte array is a function `Nat → Nat`,
JavaScript numbers that can go negative are `Int`, and operations that can
fail at runtime (out-of-bounds handler lookups) return `Option`.
-/

namespace Vic20

/-! ## Utilities (lib/utils.ts) -/

/-- Utils.ExtractBits: `(value >> bitStart) & (2^(bitEnd-bitStart+1) - 1)`. -/
def extractBits (value bitStart bitEnd : Nat) : Nat :=
  (value >>> bitStart) &&& (2 ^ (bitEnd - bitStart + 1) - 1)

/-- Utils.msb: high byte of a 16-bit word, `(value & 0xFFFF) >> 8`. -/
def msb (value : Nat) : Nat := (value &&& 0xFFFF) >>> 8

/-- Utils.lsb: low byte, `value & 0xFF`. -/
def lsb (value : Nat) : Nat := value &&& 0xFF

/-! ## Bus (memory/memory.ts)

The bus keeps two handler arrays of length 0x10000 (`readFunc`,
`writeFunc`), filled for indices 0x0000..0xFFFF at construction.  The
default read handler returns the backing `Uint8Array` byte; we model the
backing array as a function `Nat → Nat` whose values are bytes.  A lookup
outside the filled range finds no handler (the JS call throws), modelled
as `none`. -/

/-- The 64 KiB backing byte array of the bus. -/
def Mem : Type := Nat → Nat

/-- Number of entries of the handler arrays (`this.size = 65536`). -/
def busSize : Nat := 0x10000

/-- Handler-array lookup plus invocation for a read:
`this.readFunc[offset](offset)` with the default `readMem` handler. -/
def readFuncAt (m : Mem) (offset : Nat) : Option Nat :=
  if offset < busSize then some (m offset) else none

/-- Memory.readWord: low byte from `readFunc[offset]`, high byte from
`readFunc[offset + 1]` (no wrap applied), result `lo + (hi << 8)`. -/
def readWord (m : Mem) (offset : Nat) : Option Nat :=
  match readFuncAt m offset, readFuncAt m (offset + 1) with
  | some lo, some hi => some (lo + (hi <<< 8))
  | _, _ => none

/-- Memory.writeByte through the default `writeMem` handler: the
`Uint8Array` store truncates the value to a byte. -/
def writeByte (m : Mem) (offset value : Nat) : Mem :=
  Function.update m offset (value % 256)

/-! ## CPU (cpu/cpu_6502.ts, cpu/cpu_6502_internal.ts, cpu/processor_status.ts)

The processor-status byte P holds C=bit0, Z=bit1, I=bit2, D=bit3, B=bit4,
unused=bit5, V=bit6, N=bit7.  The source mutates it through
ProcessorStatus set/clear methods (`Flags |= mask`, `Flags &= ~mask`); the
flag byte stays in 0..255 throughout, so `~mask` acts as the byte
complement of the mask. -/

structure CpuState where
  PC : Nat
  SP : Nat
  A : Nat
  X : Nat
  Y : Nat
  P : Nat
  mem : Mem
  requiresIrq : Bool
  requiresNmi : Bool

/-- ProcessorStatus.isSetC. -/
def isSetC (p : Nat) : Bool := p &&& 0x01 ≠ 0

/-- ProcessorStatus.isSetI. -/
def isSetI (p : Nat) : Bool := p &&& 0x04 ≠ 0

/-- ProcessorStatus.isSetD. -/
def isSetD (p : Nat) : Bool := p &&& 0x08 ≠ 0

/-- ProcessorStatus.setC (`Flags |= 1`). -/
def setC (p : Nat) : Nat := p ||| 0x01

/-- ProcessorStatus.clearC (`Flags &= ~1`, byte-ranged). -/
def clearC (p : Nat) : Nat := p &&& 0xFE

/-- ProcessorStatus.setI (`Flags |= 4`). -/
def setI (p : Nat) : Nat := p ||| 0x04

/-- cpu6502Internal.push: write the byte at `0x100 + SP`, then decrement
SP modulo 256 (`(SP - 1) & 0xFF`). -/
def push (s : CpuState) (value : Nat) : CpuState :=
  { s with mem := writeByte s.mem (0x100 + s.SP) value,
           SP := (s.SP + 255) % 256 }

/-- cpu6502Internal.pop: increment SP modulo 256, then read the byte at
`0x100 + SP`. -/
def pop (s : CpuState) : CpuState × Nat :=
  let sp := (s.SP + 1) % 256
  ({ s with SP := sp }, s.mem (0x100 + sp))

/-- cpu6502Internal.setzn: truncate to a byte, set Z iff the byte is zero
and N to its bit 7; returns the new P byte and the truncated value. -/
def setzn (p v : Nat) : Nat × Nat :=
  let v := v &&& 0xFF
  let p := if v = 0 then p ||| 0x02 else p &&& 0xFD
  let p := if v &&& 0x80 ≠ 0 then p ||| 0x80 else p &&& 0x7F
  (p, v)

/-- cpu6502Internal.adcNonBcd: binary-mode add with carry. -/
def adcNonBcd (s : CpuState) (value : Nat) : CpuState :=
  let carryIn := if isSetC s.P then 1 else 0
  let result := s.A + value + carryIn
  let carryOut := (result &&& 0x100) >>> 8
  let p := if carryOut ≠ 0 then setC s.P else clearC s.P
  let c6 := ((extractBits value 0 6 + extractBits s.A 0 6 + carryIn) &&& 0x80) >>> 7
  let v := c6 ^^^ carryOut
  let p := if v ≠ 0 then p ||| 0x40 else p &&& 0xBF
  let a := result &&& 0xFF
  let p := (setzn p a).1
  { s with A := a, P := p }

/-- cpu6502Internal.sbc, branch for the D flag clear:
`adcNonBcd(value ^ 0xFF)`. -/
def sbcBinary (s : CpuState) (value : Nat) : CpuState :=
  adcNonBcd s (value ^^^ 0xFF)

/-- cpu6502Internal.irq: push PC high, PC low, the raw P byte, set I,
then load PC from the IRQ vector 0xFFFE.  The vector addresses are inside
the handler range, so the bus word read always succeeds. -/
def irq (s : CpuState) : CpuState :=
  let pc := s.PC
  let s := push s (msb pc)
  let s := push s (lsb pc)
  let s := push s s.P
  let s := { s with P := setI s.P }
  { s with PC := (readWord s.mem 0xFFFE).getD 0 }

/-- cpu6502Internal.nmi: like irq but the vector is 0xFFFA. -/
def nmi (s : CpuState) : CpuState :=
  let pc := s.PC
  let s := push s (msb pc)
  let s := push s (lsb pc)
  let s := push s s.P
  let s := { s with P := setI s.P }
  { s with PC := (readWord s.mem 0xFFFA).getD 0 }

/-- cpu6502Internal.brk: the PC has already been advanced past the opcode
byte; push `PC + 1`, push P with bits 4 and 5 forced set, set I, load PC
from the IRQ vector 0xFFFE. -/
def brk (s : CpuState) : CpuState :=
  let pc := s.PC + 1
  let s := push s (msb pc)
  let s := push s (lsb pc)
  let s := push s (s.P ||| 0x10 ||| 0x20)
  let s := { s with P := setI s.P }
  { s with PC := (readWord s.mem 0xFFFE).getD 0 }

/-- cpu6502Internal.rti: pull the full flags byte (no masking of bits 4
and 5), then PC low, then PC high. -/
def rti (s : CpuState) : CpuState :=
  let (s, flags) := pop s
  let s := { s with P := flags }
  let (s, lo) := pop s
  let (s, hi) := pop s
  { s with PC := (hi <<< 8) ||| lo }

/-- cpu6502Internal.jsr: push `(PC - 1) & 0xFFFF` (PC already points at
the next instruction), high byte first, and jump to the operand. -/
def jsr (s : CpuState) (address : Nat) : CpuState :=
  let nextInstOffset := (s.PC + 0x10000 - 1) &&& 0xFFFF
  let s := push s (msb nextInstOffset)
  let s := push s (lsb nextInstOffset)
  { s with PC := address }

/-- cpu6502Internal.rts: pull low then high byte and set
`PC := address + 1` — the source applies no 16-bit mask here. -/
def rts (s : CpuState) : CpuState :=
  let (s, lo) := pop s
  let (s, hi) := pop s
  { s with PC := ((hi <<< 8) ||| lo) + 1 }

/-- cpu6502Internal.FetchInstruction: read the byte at PC and advance PC
by one, masked to 16 bits. -/
def fetchInstruction (s : CpuState) : CpuState × Nat :=
  ({ s with PC := (s.PC + 1) &&& 0xFFFF }, s.mem s.PC)

/-- Interrupt dispatch at the top of cpu6502.cycle() when
`Cycles === 0`: first, if the I flag is clear and `requiresIrq` is set,
service the IRQ and clear `requiresIrq`; then (not `else`), if
`requiresNmi` is set, service the NMI and clear `requiresNmi`. -/
def interruptDispatch (s : CpuState) : CpuState :=
  let s :=
    if (!(isSetI s.P)) && s.requiresIrq then { irq s with requiresIrq := false }
    else s
  if s.requiresNmi then { nmi s with requiresNmi := false } else s

/-- cpu6502.GetMemoryOffset, case "X,ind": `add = (operand + X) % 0x100`,
low byte read at `add`, high byte read at `add + 1` — the source applies
no zero-page wrap to `add + 1`. -/
def getMemoryOffsetXInd (s : CpuState) (address : Nat) : Nat :=
  let add := (address + s.X) % 0x100
  let lsbXInd := s.mem add
  let msbXInd := s.mem (add + 1)
  (msbXInd <<< 8) + lsbXInd

/-- One full execution of opcode 0x20 (JSR abs) starting at the opcode
fetch: FetchInstruction, the 3-byte-instruction operand word read of
executeInstruction (which can go out of bounds at the top of memory,
hence `Option`), the PC advance, then the jsr operation. -/
def stepJSR (s : CpuState) : Option CpuState :=
  let s := (fetchInstruction s).1
  match readWord s.mem s.PC with
  | none => none
  | some operand =>
      let s := { s with PC := (s.PC + 2) &&& 0xFFFF }
      some (jsr s operand)

/-- One full execution of opcode 0x60 (RTS, implied, 1 byte):
FetchInstruction then the rts operation. -/
def stepRTS (s : CpuState) : CpuState :=
  let s := (fetchInstruction s).1
  rts s

/-- One full execution of opcode 0x40 (RTI, implied, 1 byte):
FetchInstruction then the rti operation. -/
def stepRTI (s : CpuState) : CpuState :=
  let s := (fetchInstruction s).1
  rti s

/-! ## VIA 6522 (io/via_6522.ts)

Register file `reg` is a 16-entry array of bytes, modelled as a function;
`setReg` masks both the index (`& 0xF`) and the value (`& 0xFF`), as the
source does.  The optional port callbacks `getPortA`/`getPortB` are
modelled as optional externally supplied byte values.  IFR/IER bit
assignments: 0=CA2, 1=CA1, 2=SR, 3=CB2, 4=CB1, 5=T2, 6=T1. -/

structure ViaState where
  reg : Nat → Nat
  T2LL : Nat
  T2C : Int
  inhibitT1 : Bool
  inhibitT2 : Bool
  portA : Option Nat
  portB : Option Nat

/-- via6522.getReg: register 13 (IFR) returns bits 0..6 as stored with
bit 7 derived from `(reg[13] & 127) != 0` — the IER is not consulted;
register 14 (IER) returns the stored value with bit 7 forced; all other
registers read back directly. -/
def getReg (s : ViaState) (index : Nat) : Nat :=
  if index = 13 then
    ((s.reg 13 &&& 127) ||| (if s.reg 13 &&& 127 ≠ 0 then 0x80 else 0x00)) &&& 0xFF
  else if index = 14 then (s.reg 14 ||| 0x80) &&& 0xFF
  else s.reg index &&& 0xFF

/-- via6522.setReg: store `value & 0xFF` at index `index & 0xF`. -/
def setReg (s : ViaState) (index value : Nat) : ViaState :=
  { s with reg := Function.update s.reg (index &&& 0xF) (value &&& 0xFF) }

/-- via6522.setIfr: `(getReg(IFR) & ~(1 << bit)) | (status << bit)`,
stored back through setReg (note the derived bit 7 of the read gets
stored).  The read value is a byte, so `~(1 << bit)` acts as the byte
complement of the bit mask. -/
def setIfr (s : ViaState) (bit : Nat) (status : Bool) : ViaState :=
  let ifr := getReg s 13
  let newValue := ((ifr &&& (0xFF ^^^ (1 <<< bit))) ||| ((if status then 1 else 0) <<< bit)) &&& 0xFF
  setReg s 13 newValue

/-- via6522.irq getter: mask the IFR by the timer inhibit flags, test
`(ifr & ier & 0x7F) > 0`, and — as a side effect — clear the T1 (bit 6)
and T2 (bit 5) interrupt flags and inhibits when they are observed. -/
def viaIrq (s : ViaState) : Bool × ViaState :=
  let ifr0 := getReg s 13
  let ier := getReg s 14
  let ifr1 := ifr0 &&& (if s.inhibitT1 then 0xBF else 0xFF)
  let ifr := ifr1 &&& (if s.inhibitT2 then 0xDF else 0xFF)
  let result := ifr &&& ier &&& 0x7F > 0
  let s :=
    if ifr &&& ier &&& 0x7F &&& 0x40 ≠ 0 then
      setIfr { s with inhibitT1 := false } 6 false
    else s
  let s :=
    if ifr &&& ier &&& 0x7F &&& 0x20 ≠ 0 then
      setIfr { s with inhibitT2 := false } 5 false
    else s
  (result, s)

/-- via6522.read: register decoding is `(offset - base) & 0xF`; returns
the value read and the updated state (several registers clear IFR bits or
inhibit flags as side effects).  The port callbacks default to 255 when
absent; `~ddr` acts as the byte complement since the port values and data
direction registers are bytes. -/
def viaRead (s : ViaState) (offset base : Nat) : Nat × ViaState :=
  let register := (offset - base) &&& 0xF
  if register = 0 then
    let ddrb := getReg s 2
    let pins_in := (s.portB.getD 255) &&& (0xFF ^^^ ddrb)
    let reg_in := getReg s 0 &&& ddrb
    let s := setIfr s 3 false
    let s := setIfr s 4 false
    ((pins_in ||| reg_in) &&& 0xFF, s)
  else if register = 1 then
    let ddra := getReg s 3
    let s := setIfr s 0 false
    let s := setIfr s 1 false
    ((s.portA.getD 255) &&& (0xFF ^^^ ddra), s)
  else if register = 2 then (getReg s 2, s)
  else if register = 3 then (getReg s 3, s)
  else if register = 4 then
    let s := setIfr s 6 false
    (getReg s 4, s)
  else if register = 5 then (getReg s 5, s)
  else if register = 6 then (getReg s 6, s)
  else if register = 7 then (getReg s 7, s)
  else if register = 8 then
    let s := { s with inhibitT2 := false }
    let s := setIfr s 5 false
    (getReg s 8, s)
  else if register = 9 then (getReg s 9, s)
  else if register = 10 then (getReg s 10, s)
  else if register = 11 then (getReg s 11, s)
  else if register = 12 then (getReg s 12, s)
  else if register = 13 then (getReg s 13, s)
  else if register = 14 then (getReg s 14, s)
  else if register = 15 then
    let ddra := getReg s 3
    ((s.portA.getD 255) &&& (0xFF ^^^ ddra), s)
  else (0, s)

/-! ## VIC 6560/6561 (Vic6560.ts, VicControlRegisters in vic20.ts)

JavaScript `~~(a / b)` truncates toward zero, which is `Int.tdiv`; the JS
`%` operator is the matching truncated remainder `Int.tmod`.  The decoded
control-register fields are carried directly in the state (the source
keeps them as properties of VicControlRegisters updated on register
writes).  `DoubleCharacterSize` is the 0/1 number decoded from CR3 bit 0
and is used as a JS truthiness test.  The framebuffer `_data32` is a
function from word index to 32-bit pixel value; VIC-visible memory reads
go through `MapMemory` and the bus, modelled as a total byte function on
`Int` indices (all reachable indices are in range). -/

structure VicState where
  CyclesPerLine : Nat
  HorizontalBlankCycles : Nat
  BlankLeftCycles : Nat
  LinesPerFrame : Nat
  VerticalBlankRows : Nat
  cycle : Nat
  rowPixel : Nat
  ScreenOriginX : Nat
  ScreenOriginY : Nat
  NumberOfVideoColumns : Nat
  NumberOfVideoRows : Nat
  DoubleCharacterSize : Nat
  ScreenMemoryLocation : Nat
  CharacterMemoryLocation : Nat
  ColorBase : Nat
  ScreenColour : Nat
  BorderColour : Nat
  AuxilliaryColour : Nat
  ReverseMode : Bool
  mem : Int → Nat
  data32 : Int → Nat

/-- Vic6560.ScreenWidth: `(CyclesPerLine - HorizontalBlankCycles) * 4`. -/
def screenWidth (s : VicState) : Nat :=
  (s.CyclesPerLine - s.HorizontalBlankCycles) * 4

/-- Vic6560 Cycle prelude: `_rowCycle = _cycle % CyclesPerLine`. -/
def rowCycle (s : VicState) : Nat := s.cycle % s.CyclesPerLine

/-- Vic6560 Cycle prelude: `_line = ~~(_cycle / CyclesPerLine)`. -/
def vicLine (s : VicState) : Nat := s.cycle / s.CyclesPerLine

/-- Vic6560 Cycle prelude: `_rasterLine = _line - VerticalBlankRows`
(can be negative during vertical blanking). -/
def rasterLine (s : VicState) : Int :=
  (vicLine s : Int) - (s.VerticalBlankRows : Int)

/-- Vic6560.isRowBlanking:
`!(_cycle > BlankLeftCycles && _rowCycle < CyclesPerLine - HorizontalBlankCycles)`. -/
def isRowBlanking (s : VicState) : Bool :=
  !(decide (s.cycle > s.BlankLeftCycles) &&
    decide (rowCycle s < s.CyclesPerLine - s.HorizontalBlankCycles))

/-- Vic6560.isLineBlanking: `_rasterLine < 0`. -/
def isLineBlanking (s : VicState) : Bool := decide (rasterLine s < 0)

/-- Vic6560.getColumn:
`~~((100 + _rowCycle - ScreenOriginX + BlankLeftCycles) / 2) - 50`. -/
def getColumn (s : VicState) : Int :=
  Int.tdiv (100 + (rowCycle s : Int) - (s.ScreenOriginX : Int) + (s.BlankLeftCycles : Int)) 2 - 50

/-- Vic6560.getRow, with `round = 800` and character size 8 or 16:
`~~((round + _rasterLine - (ScreenOriginY*2 - VerticalBlankRows)) / characterSize) - round/characterSize`. -/
def getRow (s : VicState) : Int :=
  let characterSize : Int := if s.DoubleCharacterSize ≠ 0 then 16 else 8
  Int.tdiv (800 + rasterLine s - ((s.ScreenOriginY : Int) * 2 - (s.VerticalBlankRows : Int)))
      characterSize
    - Int.tdiv 800 characterSize

/-- Vic6560.isTextArea: column and row lie inside the text matrix. -/
def isTextArea (s : VicState) : Bool :=
  decide (getColumn s ≥ 0) && decide (getColumn s < (s.NumberOfVideoColumns : Int)) &&
  decide (getRow s ≥ 0) && decide (getRow s < (s.NumberOfVideoRows : Int))

/-- Vic6560.Colors palette (16 ARGB words). -/
def Colors : List Nat :=
  [0xff000000, 0xffffffff, 0xff001089, 0xffcfbf46,
   0xffc61486, 0xff05b745, 0xffd01327, 0xff15d2be,
   0xff00469a, 0xff0099ff, 0xffcbc0ff, 0xf0fffffe,
   0xffd87093, 0xff90ee90, 0xffe6d8ad, 0xffe0ffff]

/-- Vic6560.getMulticolor: 00 background, 01 border, 10 foreground,
11 auxiliary. -/
def getMulticolor (multicolorMode backgroundColor borderColor foregroundColor auxilliaryColor : Nat) : Nat :=
  if multicolorMode = 0 then backgroundColor
  else if multicolorMode = 1 then borderColor
  else if multicolorMode = 2 then foregroundColor
  else auxilliaryColor

/-- VicControlRegisters.MapMemory:
`offset % 0x4FFF` then `(o & 0x1FFF) | (~((o & 0x2000) << 2) & 0x8000)`;
since `(o & 0x2000) << 2` is 0 or 0x8000, the complemented-and-masked
term equals `0x8000 ^ ((o & 0x2000) << 2)`.  All offsets passed in by
Cycle are non-negative. -/
def mapMemory (vic6560Offset : Int) : Int :=
  let o := (Int.tmod vic6560Offset 0x4FFF).toNat
  (((o &&& 0x1FFF) ||| (0x8000 ^^^ ((o &&& 0x2000) <<< 2)) : Nat) : Int)

/-- Framebuffer writes of one Vic6560.Cycle call, as the ordered list of
(index, pixel) pairs stored into `_data32` (index
`_rasterLine * ScreenWidth + _rowPixel`, `_rowPixel` advancing by one per
write).  Blanking cycles write nothing; text-area cycles write four
pixels from the character generator; other visible cycles write four
border pixels. -/
def vicPixelWrites (s : VicState) : List (Int × Nat) :=
  let base : Int := rasterLine s * (screenWidth s : Int) + (s.rowPixel : Int)
  if isRowBlanking s || isLineBlanking s then []
  else if isTextArea s then
    let col := getColumn s
    let row := getRow s
    let evenCycle := Int.tmod ((rowCycle s : Int) - (s.ScreenOriginX : Int)) 2 = 0
    let charIndex := row * (s.NumberOfVideoColumns : Int) + col
    let charPointerOffset := mapMemory ((s.ScreenMemoryLocation : Int) + charIndex)
    let characterPointer0 := (s.mem charPointerOffset : Int)
    let colorPointer0 := charIndex
    let characterPointer1 := characterPointer0 <<< 3
    let characterPointer2 :=
      if s.DoubleCharacterSize ≠ 0 then characterPointer1 <<< 1 else characterPointer1
    let characterPointer3 := characterPointer2 + (s.CharacterMemoryLocation : Int)
    let colorPointer1 := colorPointer0 + (s.ColorBase : Int)
    let characterSize : Int := if s.DoubleCharacterSize ≠ 0 then 16 else 8
    let characterPointer4 := characterPointer3 +
      Int.tmod (rasterLine s - ((s.ScreenOriginY : Int) * 2 - (s.VerticalBlankRows : Int)))
        characterSize
    let characterPointer := mapMemory characterPointer4
    let colorPointer := mapMemory colorPointer1
    let charData := s.mem characterPointer
    let colorData0 := s.mem colorPointer
    let colorData := extractBits colorData0 0 3
    let colorMode := colorData &&& 0x8 > 0
    let forecolor := extractBits colorData 0 2
    let backcolor := s.ScreenColour
    if colorMode then
      let auxColor := s.AuxilliaryColour
      if evenCycle then
        let color1 := getMulticolor (extractBits charData 6 7) backcolor s.BorderColour forecolor auxColor
        let color2 := getMulticolor (extractBits charData 4 5) backcolor s.BorderColour forecolor auxColor
        [(base, Colors.getD color1 0), (base + 1, Colors.getD color1 0),
         (base + 2, Colors.getD color2 0), (base + 3, Colors.getD color2 0)]
      else
        let color3 := getMulticolor (extractBits charData 2 3) backcolor s.BorderColour forecolor auxColor
        let color4 := getMulticolor (extractBits charData 0 1) backcolor s.BorderColour forecolor auxColor
        [(base, Colors.getD color3 0), (base + 1, Colors.getD color3 0),
         (base + 2, Colors.getD color4 0), (base + 3, Colors.getD color4 0)]
    else
      let forecolor := if s.ReverseMode then colorData else forecolor
      if evenCycle then
        [(base, if charData &&& 0x80 ≠ 0 then Colors.getD forecolor 0 else Colors.getD backcolor 0),
         (base + 1, if charData &&& 0x40 ≠ 0 then Colors.getD forecolor 0 else Colors.getD backcolor 0),
         (base + 2, if charData &&& 0x20 ≠ 0 then Colors.getD forecolor 0 else Colors.getD backcolor 0),
         (base + 3, if charData &&& 0x10 ≠ 0 then Colors.getD forecolor 0 else Colors.getD backcolor 0)]
      else
        [(base, if charData &&& 0x08 ≠ 0 then Colors.getD forecolor 0 else Colors.getD backcolor 0),
         (base + 1, if charData &&& 0x04 ≠ 0 then Colors.getD forecolor 0 else Colors.getD backcolor 0),
         (base + 2, if charData &&& 0x02 ≠ 0 then Colors.getD forecolor 0 else Colors.getD backcolor 0),
         (base + 3, if charData &&& 0x01 ≠ 0 then Colors.getD forecolor 0 else Colors.getD backcolor 0)]
  else
    [(base, Colors.getD s.BorderColour 0), (base + 1, Colors.getD s.BorderColour 0),
     (base + 2, Colors.getD s.BorderColour 0), (base + 3, Colors.getD s.BorderColour 0)]

/-- Vic6560.Cycle, restricted to the state components the framebuffer
claims are about: apply the pixel writes to `_data32` (with `_rowPixel`
advancing once per written pixel), advance `_cycle`, reset `_rowPixel` at
the end of a line, and reset `_cycle` and `_rowPixel` at the end of the
frame (the canvas commit itself is host I/O).  The raster-register
mirror updates (control registers 3 and 4) only touch the raw control
register array, which no path below reads. -/
def vicCycle (s : VicState) : VicState :=
  let ws := vicPixelWrites s
  let s := { s with
    data32 := ws.foldl (fun f (iv : Int × Nat) => Function.update f iv.1 iv.2) s.data32,
    rowPixel := s.rowPixel + ws.length }
  let s := { s with cycle := s.cycle + 1 }
  let s := if s.cycle % s.CyclesPerLine = 0 then { s with rowPixel := 0 } else s
  if s.cycle = s.CyclesPerLine * s.LinesPerFrame then
    { s with cycle := 0, rowPixel := 0 }
  else s

/-! ## Concrete states used by the per-claim evaluations -/

/-- Concrete memory for the C6 evaluation: zero page holds 0x34 at 0xFF
and 0x12 at 0x00, while the out-of-zero-page address 0x100 holds 0xAB. -/
def c6mem : Mem := fun a =>
  if a = 0xFF then 0x34 else if a = 0x00 then 0x12 else if a = 0x100 then 0xAB else 0

/-- Concrete CPU state for the C6 evaluation (X = 0). -/
def c6state : CpuState :=
  { PC := 0, SP := 0, A := 0, X := 0, Y := 0, P := 0, mem := c6mem,
    requiresIrq := false, requiresNmi := false }

/-- Concrete memory for the C1 evaluations: NMI vector 0x1234 at
0xFFFA/0xFFFB, IRQ vector 0x5678 at 0xFFFE/0xFFFF. -/
def c1mem : Mem := fun a =>
  if a = 0xFFFA then 0x34 else if a = 0xFFFB then 0x12
  else if a = 0xFFFE then 0x78 else if a = 0xFFFF then 0x56 else 0

/-- Concrete CPU state for the C1 evaluations: both interrupts pending
and the I flag clear. -/
def c1state : CpuState :=
  { PC := 0x8000, SP := 0xFF, A := 1, X := 2, Y := 3, P := 0, mem := c1mem,
    requiresIrq := true, requiresNmi := true }

/-- Concrete CPU state for the C3 witness: the S2 scenario of the
specification, A = 0x50, carry clear. -/
def c3state : CpuState :=
  { PC := 0, SP := 0xFF, A := 0x50, X := 0, Y := 0, P := 0, mem := fun _ => 0,
    requiresIrq := false, requiresNmi := false }

/-! ## Helper definitions for proofs -/

/-- Concrete CPU state for the interrupt round-trip experiments: the
status byte is 0, the vectors come from `c1mem`, and no interrupt lines
are pending. -/
def c4state : CpuState :=
  { PC := 0x8000, SP := 0xFF, A := 5, X := 6, Y := 7, P := 0, mem := c1mem,
    requiresIrq := false, requiresNmi := false }

/-- Concrete CPU state with the program counter two bytes below the top
of memory, so that the operand word of a 3-byte instruction straddles the
end of the address space. -/
def c5state : CpuState :=
  { PC := 0xFFFE, SP := 0xFF, A := 0, X := 0, Y := 0, P := 0, mem := c1mem,
    requiresIrq := false, requiresNmi := false }

/-- VIA state with IFR = 0x01 (CA2 pending) and IER = 0 (nothing
enabled). -/
def c7via : ViaState :=
  { reg := fun i => if i = 13 then 0x01 else 0, T2LL := 0, T2C := 0,
    inhibitT1 := false, inhibitT2 := false, portA := none, portB := none }

/-- VIA state with DDRA = 0xFF (all output), ORA = 0xAB and external
port-A value 0xFF. -/
def c8via : ViaState :=
  { reg := fun i => if i = 3 then 0xFF else if i = 1 then 0xAB else 0, T2LL := 0, T2C := 0,
    inhibitT1 := false, inhibitT2 := false, portA := some 0xFF, portB := none }

/-- VIA state with only the T1 interrupt pending and enabled
(IFR = IER = 0x40), timer inhibits clear. -/
def c10via : ViaState :=
  { reg := fun i => if i = 13 then 0x40 else if i = 14 then 0x40 else 0, T2LL := 0, T2C := 0,
    inhibitT1 := false, inhibitT2 := false, portA := none, portB := none }

/-- VIA state with T1 and CA1 interrupts pending and enabled
(IFR = IER = 0x42), timer inhibits clear. -/
def c10via2 : ViaState :=
  { reg := fun i => if i = 13 then 0x42 else if i = 14 then 0x42 else 0, T2LL := 0, T2C := 0,
    inhibitT1 := false, inhibitT2 := false, portA := none, portB := none }

/-- PAL-timed VIC state on a vertical-blanking line (`_cycle = 1846`,
line 26 of 27 blank rows, so `_rasterLine = -1`) whose computed column
(4) and row (3) nevertheless lie inside the 22x23 text matrix. -/
def c9vic : VicState :=
  { CyclesPerLine := 71, HorizontalBlankCycles := 15, BlankLeftCycles := 8,
    LinesPerFrame := 312, VerticalBlankRows := 27, cycle := 1846, rowPixel := 0,
    ScreenOriginX := 0, ScreenOriginY := 0, NumberOfVideoColumns := 22,
    NumberOfVideoRows := 23, DoubleCharacterSize := 0, ScreenMemoryLocation := 0,
    CharacterMemoryLocation := 0, ColorBase := 0, ScreenColour := 0, BorderColour := 0,
    AuxilliaryColour := 0, ReverseMode := false, mem := fun _ => 0, data32 := fun _ => 0 }

/-- PAL-timed VIC state on a visible cycle (`_cycle = 1988`, raster line
1, row cycle 0) with the same 22x23 text matrix. -/
def c9vicN : VicState :=
  { CyclesPerLine := 71, HorizontalBlankCycles := 15, BlankLeftCycles := 8,
    LinesPerFrame := 312, VerticalBlankRows := 27, cycle := 1988, rowPixel := 0,
    ScreenOriginX := 0, ScreenOriginY := 0, NumberOfVideoColumns := 22,
    NumberOfVideoRows := 23, DoubleCharacterSize := 0, ScreenMemoryLocation := 0,
    CharacterMemoryLocation := 0, ColorBase := 0, ScreenColour := 0, BorderColour := 0,
    AuxilliaryColour := 0, ReverseMode := false, mem := fun _ => 0, data32 := fun _ => 0 }

/-- The C/V/Z/N update chain of adcNonBcd followed by setzn, abstracted
over the four branch conditions; `adcNonBcd` literally computes this
chain (see `adcNonBcd_P`). -/
def flagChain (p : Nat) (c v z n : Prop)
    [Decidable c] [Decidable v] [Decidable z] [Decidable n] : Nat :=
  let p1 := if c then p ||| 1 else p &&& 0xFE
  let p2 := if v then p1 ||| 0x40 else p1 &&& 0xBF
  let p3 := if z then p2 ||| 2 else p2 &&& 0xFD
  if n then p3 ||| 0x80 else p3 &&& 0x7F

/-! ## Helper lemmas -/

lemma and_two_pow_ne_zero (x i : Nat) : ¬(x &&& 2 ^ i = 0) ↔ x.testBit i = true := by
  rw [Nat.and_two_pow]
  cases h : x.testBit i <;> simp

lemma bit_val7 (x : Nat) : (x &&& 128 ≠ 0) ↔ x / 128 % 2 = 1 := by
  have h := and_two_pow_ne_zero x 7
  norm_num at h
  rw [ne_eq, h, Nat.testBit_to_div_mod]
  norm_num

lemma bit7_of_and (x y : Nat) : ((x &&& y) &&& 128 ≠ 0) ↔ ((x &&& 128 ≠ 0) ∧ (y &&& 128 ≠ 0)) := by
  have h1 := and_two_pow_ne_zero (x &&& y) 7
  have h2 := and_two_pow_ne_zero x 7
  have h3 := and_two_pow_ne_zero y 7
  norm_num [Nat.testBit_land] at h1 h2 h3
  simp only [ne_eq, h1, h2, h3]

lemma bit7_of_xor (x y : Nat) : ((x ^^^ y) &&& 128 ≠ 0) ↔ ¬((x &&& 128 ≠ 0) ↔ (y &&& 128 ≠ 0)) := by
  have h1 := and_two_pow_ne_zero (x ^^^ y) 7
  have h2 := and_two_pow_ne_zero x 7
  have h3 := and_two_pow_ne_zero y 7
  norm_num [Nat.testBit_xor] at h1
  norm_num at h2 h3
  rw [ne_eq, h1, ne_eq, h2, ne_eq, h3]
  cases hx : x.testBit 7 <;> cases hy : y.testBit 7 <;> simp [hx, hy]

lemma and_two_pow_shift (x i : Nat) : (x &&& 2 ^ i) >>> i = x / 2 ^ i % 2 := by
  rw [Nat.and_two_pow, Nat.shiftRight_eq_div_pow,
      Nat.mul_div_cancel _ (Nat.pos_pow_of_pos i (by norm_num))]
  rw [Nat.testBit_to_div_mod]
  rcases Nat.mod_two_eq_zero_or_one (x / 2 ^ i) with h | h <;> simp [h]

lemma xor_bits_ne (a b : Nat) (ha : a < 2) (hb : b < 2) : (a ^^^ b ≠ 0) ↔ a ≠ b := by
  interval_cases a <;> interval_cases b <;> decide

lemma extract06_eq_mod (x : Nat) : extractBits x 0 6 = x % 128 := by
  unfold extractBits
  rw [Nat.shiftRight_zero]
  have := Nat.and_pow_two_sub_one_eq_mod x 7
  norm_num at this
  exact this

lemma v_core (A M k : Nat) (hA : A < 256) (hM : M < 256) (hk : k < 2) :
    ((M % 128 + A % 128 + k) / 128 % 2 ≠ (A + M + k) / 256 % 2)
      ↔ (¬((A / 128 % 2 = 1) ↔ ((A + M + k) / 128 % 2 = 1)) ∧
         ¬((M / 128 % 2 = 1) ↔ ((A + M + k) / 128 % 2 = 1))) := by
  obtain ⟨a, A0, ha, hA0, rfl⟩ : ∃ a A0, a < 2 ∧ A0 < 128 ∧ A = 128 * a + A0 :=
    ⟨A / 128, A % 128, by omega, Nat.mod_lt _ (by norm_num), by omega⟩
  obtain ⟨b, M0, hb, hM0, rfl⟩ : ∃ b M0, b < 2 ∧ M0 < 128 ∧ M = 128 * b + M0 :=
    ⟨M / 128, M % 128, by omega, Nat.mod_lt _ (by norm_num), by omega⟩
  omega

lemma adc_v_equiv (A M k : Nat) (hA : A < 256) (hM : M < 256) (hk : k < 2) :
    ((((M % 128 + A % 128 + k) &&& 128) >>> 7) ^^^ (((A + M + k) &&& 256) >>> 8) ≠ 0)
      ↔ ((A ^^^ (A + M + k)) &&& ((M ^^^ (A + M + k))) &&& 128 ≠ 0) := by
  have e1 : (((M % 128 + A % 128 + k) &&& 128) >>> 7) = (M % 128 + A % 128 + k) / 128 % 2 := by
    have := and_two_pow_shift (M % 128 + A % 128 + k) 7; norm_num at this; exact this
  have e2 : (((A + M + k) &&& 256) >>> 8) = (A + M + k) / 256 % 2 := by
    have := and_two_pow_shift (A + M + k) 8; norm_num at this; exact this
  rw [e1, e2, xor_bits_ne _ _ (Nat.mod_lt _ (by norm_num)) (Nat.mod_lt _ (by norm_num)),
      bit7_of_and, bit7_of_xor, bit7_of_xor, bit_val7, bit_val7, bit_val7]
  exact v_core A M k hA hM hk

lemma adcNonBcd_P (s : CpuState) (value : Nat) :
    (adcNonBcd s value).P =
      flagChain s.P
        ((((s.A + value + (if isSetC s.P then 1 else 0)) &&& 0x100) >>> 8) ≠ 0)
        (((((extractBits value 0 6 + extractBits s.A 0 6 + (if isSetC s.P then 1 else 0)) &&& 0x80) >>> 7) ^^^
          (((s.A + value + (if isSetC s.P then 1 else 0)) &&& 0x100) >>> 8)) ≠ 0)
        ((((s.A + value + (if isSetC s.P then 1 else 0)) &&& 0xFF) &&& 0xFF) = 0)
        (((((s.A + value + (if isSetC s.P then 1 else 0)) &&& 0xFF) &&& 0xFF) &&& 0x80) ≠ 0) := rfl

lemma flag_chain_testBit (p : Nat) (c v z n : Prop)
    [Decidable c] [Decidable v] [Decidable z] [Decidable n] :
    (flagChain p c v z n).testBit 0 = decide c ∧ (flagChain p c v z n).testBit 6 = decide v ∧
    (flagChain p c v z n).testBit 1 = decide z ∧ (flagChain p c v z n).testBit 7 = decide n := by
  by_cases hc : c <;> by_cases hv : v <;> by_cases hz : z <;> by_cases hn : n <;>
    refine ⟨?_, ?_, ?_, ?_⟩ <;>
    · simp only [flagChain, hc, hv, hz, hn, ite_true, ite_false, eq_self_iff_true,
        if_true, if_false, decide_True, decide_False]
      simp only [Nat.testBit_lor, Nat.testBit_land]
      simp only [show Nat.testBit 1 0 = true by decide,
        show Nat.testBit 1 1 = false by decide,
        show Nat.testBit 1 6 = false by decide,
        show Nat.testBit 1 7 = false by decide,
        show Nat.testBit 2 0 = false by decide,
        show Nat.testBit 2 1 = true by decide,
        show Nat.testBit 2 6 = false by decide,
        show Nat.testBit 2 7 = false by decide,
        show Nat.testBit 64 0 = false by decide,
        show Nat.testBit 64 1 = false by decide,
        show Nat.testBit 64 6 = true by decide,
        show Nat.testBit 64 7 = false by decide,
        show Nat.testBit 128 0 = false by decide,
        show Nat.testBit 128 1 = false by decide,
        show Nat.testBit 128 6 = false by decide,
        show Nat.testBit 128 7 = true by decide,
        show Nat.testBit 254 0 = false by decide,
        show Nat.testBit 254 1 = true by decide,
        show Nat.testBit 254 6 = true by decide,
        show Nat.testBit 254 7 = true by decide,
        show Nat.testBit 253 0 = true by decide,
        show Nat.testBit 253 1 = false by decide,
        show Nat.testBit 253 6 = true by decide,
        show Nat.testBit 253 7 = true by decide,
        show Nat.testBit 191 0 = true by decide,
        show Nat.testBit 191 1 = true by decide,
        show Nat.testBit 191 6 = false by decide,
        show Nat.testBit 191 7 = true by decide,
        show Nat.testBit 127 0 = true by decide,
        show Nat.testBit 127 1 = true by decide,
        show Nat.testBit 127 6 = true by decide,
        show Nat.testBit 127 7 = false by decide]
      simp

/-! ## Helper lemmas for the interrupt claims -/

lemma readWord_in_range (m : Mem) (a : Nat) (h : a + 1 < busSize) :
    readWord m a = some (m a + ((m (a + 1)) <<< 8)) := by
  unfold readWord readFuncAt
  rw [if_pos (by omega : a < busSize), if_pos h]

lemma push_mem_high (s : CpuState) (v a : Nat) (hSP : s.SP < 256) (ha : 0x200 ≤ a) :
    (push s v).mem a = s.mem a := by
  unfold push writeByte
  exact Function.update_noteq (by omega) _ _

lemma push_SP_lt (s : CpuState) (v : Nat) : (push s v).SP < 256 :=
  Nat.mod_lt _ (by norm_num)

lemma push3_mem_high (s : CpuState) (v1 v2 v3 a : Nat) (hSP : s.SP < 256) (ha : 0x200 ≤ a) :
    (push (push (push s v1) v2) v3).mem a = s.mem a := by
  rw [push_mem_high _ _ _ (push_SP_lt _ _) ha, push_mem_high _ _ _ (push_SP_lt _ _) ha,
      push_mem_high _ _ _ hSP ha]

lemma nmi_facts (s : CpuState) (hSP : s.SP < 256) :
    (nmi s).PC = s.mem 0xFFFA + ((s.mem 0xFFFB) <<< 8) ∧
    (nmi s).requiresIrq = s.requiresIrq ∧ (nmi s).requiresNmi = s.requiresNmi ∧
    (nmi s).SP = (s.SP + 253) % 256 ∧
    (nmi s).A = s.A ∧ (nmi s).X = s.X ∧ (nmi s).Y = s.Y := by
  refine ⟨?_, ?_, ?_, ?_, ?_, ?_, ?_⟩ <;> simp only [nmi, push]
  case refine_4 => omega
  rw [readWord_in_range _ _ (by norm_num [busSize])]
  simp only [Option.getD_some]
  unfold writeByte
  rw [Function.update_noteq (by omega), Function.update_noteq (by omega),
      Function.update_noteq (by omega), Function.update_noteq (by omega),
      Function.update_noteq (by omega), Function.update_noteq (by omega)]

lemma irq_facts (s : CpuState) (hSP : s.SP < 256) :
    (irq s).PC = s.mem 0xFFFE + ((s.mem 0xFFFF) <<< 8) ∧
    (irq s).requiresIrq = s.requiresIrq ∧ (irq s).requiresNmi = s.requiresNmi ∧
    (irq s).SP = (s.SP + 253) % 256 ∧
    (∀ a, 0x200 ≤ a → (irq s).mem a = s.mem a) := by
  refine ⟨?_, ?_, ?_, ?_, ?_⟩ <;> simp only [irq, push]
  case refine_4 => omega
  case refine_5 =>
    intro a ha
    unfold writeByte
    rw [Function.update_noteq (by omega), Function.update_noteq (by omega),
        Function.update_noteq (by omega)]
  rw [readWord_in_range _ _ (by norm_num [busSize])]
  simp only [Option.getD_some]
  unfold writeByte
  rw [Function.update_noteq (by omega), Function.update_noteq (by omega),
      Function.update_noteq (by omega), Function.update_noteq (by omega),
      Function.update_noteq (by omega), Function.update_noteq (by omega)]

-- cheap projection facts (proved with eager projection simplification;
-- raw whnf of the interrupt bodies blows up exponentially via zeta expansion)
lemma irq_rn (s : CpuState) : (irq s).requiresNmi = s.requiresNmi := by
  simp only [irq, push]

lemma dispatch_eq_none (s : CpuState) (h : ((!(isSetI s.P)) && s.requiresIrq) = false)
    (hN : s.requiresNmi = false) : interruptDispatch s = s := by
  unfold interruptDispatch
  simp only [h, hN, irq_rn, Bool.false_eq_true, ite_false, if_false]

lemma dispatch_eq_nmi (s : CpuState) (h : ((!(isSetI s.P)) && s.requiresIrq) = false)
    (hN : s.requiresNmi = true) :
    interruptDispatch s = { nmi s with requiresNmi := false } := by
  unfold interruptDispatch
  simp only [h, hN, Bool.false_eq_true, ite_false, if_false, ite_true, if_true]

lemma dispatch_eq_irq (s : CpuState) (hI : isSetI s.P = false) (hR : s.requiresIrq = true)
    (hN : s.requiresNmi = false) :
    interruptDispatch s = { irq s with requiresIrq := false } := by
  unfold interruptDispatch
  simp only [hI, hR, hN, irq_rn, Bool.not_false, Bool.true_and, Bool.false_eq_true,
    eq_self_iff_true, ite_true, if_true, ite_false, if_false]

lemma dispatch_eq_both (s : CpuState) (hI : isSetI s.P = false) (hR : s.requiresIrq = true)
    (hN : s.requiresNmi = true) :
    interruptDispatch s =
      { nmi { irq s with requiresIrq := false } with requiresNmi := false } := by
  unfold interruptDispatch
  simp only [hI, hR, hN, irq_rn, Bool.not_false, Bool.true_and,
    eq_self_iff_true, ite_true, if_true]

lemma and_mask16 (pc : Nat) : pc &&& 0xFFFF = pc % 65536 := by
  have := Nat.and_pow_two_sub_one_eq_mod pc 16; norm_num at this; exact this

lemma and_mask8 (pc : Nat) : pc &&& 0xFF = pc % 256 := by
  have := Nat.and_pow_two_sub_one_eq_mod pc 8; norm_num at this; exact this

lemma msb_lt (pc : Nat) : msb pc < 256 := by
  unfold msb
  rw [and_mask16, Nat.shiftRight_eq_div_pow]
  have h4 : (2:Nat) ^ 8 = 256 := by norm_num
  rw [h4]
  omega

lemma lsb_lt (pc : Nat) : lsb pc < 256 := by
  unfold lsb
  rw [and_mask8]
  omega

lemma msb_lsb_recombine (pc : Nat) :
    ((msb pc) <<< 8) ||| (lsb pc) = pc &&& 0xFFFF := by
  unfold msb lsb
  have h3 : pc % 256 < 2 ^ 8 := by
    have h4 : (2:Nat) ^ 8 = 256 := by norm_num
    rw [h4]
    omega
  rw [and_mask16, and_mask8, Nat.shiftLeft_eq, Nat.shiftRight_eq_div_pow,
      mul_comm, ← Nat.mul_add_lt_is_or h3]
  have h4 : (2:Nat) ^ 8 = 256 := by norm_num
  rw [h4]
  omega

lemma fetch_mem (t : CpuState) : ((fetchInstruction t).1).mem = t.mem := by
  simp only [fetchInstruction]

lemma fetch_SP (t : CpuState) : ((fetchInstruction t).1).SP = t.SP := by
  simp only [fetchInstruction]

lemma fetch_A (t : CpuState) : ((fetchInstruction t).1).A = t.A := by
  simp only [fetchInstruction]

lemma fetch_X (t : CpuState) : ((fetchInstruction t).1).X = t.X := by
  simp only [fetchInstruction]

lemma fetch_Y (t : CpuState) : ((fetchInstruction t).1).Y = t.Y := by
  simp only [fetchInstruction]

lemma stepRTI_eq (t : CpuState) : stepRTI t = rti (fetchInstruction t).1 := by
  simp only [stepRTI]

lemma irq_mem (s : CpuState) :
    (irq s).mem = (push (push (push s (msb s.PC)) (lsb s.PC)) s.P).mem := by
  simp only [irq, push]

lemma irq_SP_eq (s : CpuState) :
    (irq s).SP = (push (push (push s (msb s.PC)) (lsb s.PC)) s.P).SP := by
  simp only [irq, push]

lemma irq_AXY (s : CpuState) : (irq s).A = s.A ∧ (irq s).X = s.X ∧ (irq s).Y = s.Y := by
  refine ⟨?_, ?_, ?_⟩ <;> simp only [irq, push]

lemma nmi_mem (s : CpuState) :
    (nmi s).mem = (push (push (push s (msb s.PC)) (lsb s.PC)) s.P).mem := by
  simp only [nmi, push]

lemma nmi_SP_eq (s : CpuState) :
    (nmi s).SP = (push (push (push s (msb s.PC)) (lsb s.PC)) s.P).SP := by
  simp only [nmi, push]

lemma nmi_AXY (s : CpuState) : (nmi s).A = s.A ∧ (nmi s).X = s.X ∧ (nmi s).Y = s.Y := by
  refine ⟨?_, ?_, ?_⟩ <;> simp only [nmi, push]

lemma brk_mem (s : CpuState) :
    (brk s).mem =
      (push (push (push s (msb (s.PC + 1))) (lsb (s.PC + 1))) (s.P ||| 0x10 ||| 0x20)).mem := by
  simp only [brk, push]

lemma brk_SP_eq (s : CpuState) :
    (brk s).SP =
      (push (push (push s (msb (s.PC + 1))) (lsb (s.PC + 1))) (s.P ||| 0x10 ||| 0x20)).SP := by
  simp only [brk, push]

lemma brk_AXY (s : CpuState) : (brk s).A = s.A ∧ (brk s).X = s.X ∧ (brk s).Y = s.Y := by
  refine ⟨?_, ?_, ?_⟩ <;> simp only [brk, push]

lemma rti_spec (u s : CpuState) (v1 v2 v3 : Nat) (hSP : s.SP < 256)
    (hmem : u.mem = (push (push (push s v1) v2) v3).mem)
    (hsp : u.SP = (push (push (push s v1) v2) v3).SP) :
    (rti u).P = v3 % 256 ∧ (rti u).PC = ((v1 % 256) <<< 8) ||| (v2 % 256) ∧
    (rti u).SP = s.SP ∧ (rti u).A = u.A ∧ (rti u).X = u.X ∧ (rti u).Y = u.Y := by
  simp only [push, writeByte] at hmem hsp
  have e1 : (u.SP + 1) % 256 = (s.SP + 254) % 256 := by rw [hsp]; omega
  have e2 : ((u.SP + 1) % 256 + 1) % 256 = (s.SP + 255) % 256 := by rw [hsp]; omega
  have e3 : (((u.SP + 1) % 256 + 1) % 256 + 1) % 256 = s.SP := by rw [hsp]; omega
  refine ⟨?_, ?_, ?_, ?_, ?_, ?_⟩ <;>
    simp only [rti, pop, hmem, hsp, Function.update_apply] <;>
    first
    | omega
    | (split_ifs <;> first | rfl | (exfalso; omega))

lemma service_rti (s t : CpuState) (v3 pc : Nat) (hSP : s.SP < 256)
    (hmem : t.mem = (push (push (push s (msb pc)) (lsb pc)) v3).mem)
    (hsp : t.SP = (push (push (push s (msb pc)) (lsb pc)) v3).SP)
    (hA : t.A = s.A) (hX : t.X = s.X) (hY : t.Y = s.Y) :
    (stepRTI t).A = s.A ∧ (stepRTI t).X = s.X ∧ (stepRTI t).Y = s.Y ∧
    (stepRTI t).P = v3 % 256 ∧ (stepRTI t).PC = pc &&& 0xFFFF ∧ (stepRTI t).SP = s.SP := by
  have hm := (fetch_mem t).trans hmem
  have hs2 := (fetch_SP t).trans hsp
  obtain ⟨p1, p2, p3, p4, p5, p6⟩ :=
    rti_spec ((fetchInstruction t).1) s (msb pc) (lsb pc) v3 hSP hm hs2
  rw [stepRTI_eq]
  refine ⟨?_, ?_, ?_, p1, ?_, p3⟩
  · rw [p4, fetch_A, hA]
  · rw [p5, fetch_X, hX]
  · rw [p6, fetch_Y, hY]
  · rw [p2, Nat.mod_eq_of_lt (msb_lt pc), Nat.mod_eq_of_lt (lsb_lt pc), msb_lsb_recombine]

lemma fetch_PC (t : CpuState) : ((fetchInstruction t).1).PC = (t.PC + 1) &&& 0xFFFF := by
  simp only [fetchInstruction]

lemma stepRTS_eq (t : CpuState) : stepRTS t = rts (fetchInstruction t).1 := by
  simp only [stepRTS]

lemma stepJSR_some (s : CpuState) (w : Nat)
    (h : readWord ((fetchInstruction s).1).mem ((fetchInstruction s).1).PC = some w) :
    stepJSR s = some (jsr { (fetchInstruction s).1 with
                            PC := (((fetchInstruction s).1).PC + 2) &&& 0xFFFF } w) := by
  simp only [stepJSR]
  rw [h]

lemma jsr_mem (s : CpuState) (a : Nat) :
    (jsr s a).mem = (push (push s (msb ((s.PC + 0x10000 - 1) &&& 0xFFFF)))
                          (lsb ((s.PC + 0x10000 - 1) &&& 0xFFFF))).mem := by
  simp only [jsr, push]

lemma jsr_SP_eq (s : CpuState) (a : Nat) :
    (jsr s a).SP = (push (push s (msb ((s.PC + 0x10000 - 1) &&& 0xFFFF)))
                         (lsb ((s.PC + 0x10000 - 1) &&& 0xFFFF))).SP := by
  simp only [jsr, push]

lemma rts_spec (u s : CpuState) (v1 v2 : Nat) (hSP : s.SP < 256)
    (hmem : u.mem = (push (push s v1) v2).mem)
    (hsp : u.SP = (push (push s v1) v2).SP) :
    (rts u).PC = (((v1 % 256) <<< 8) ||| (v2 % 256)) + 1 ∧ (rts u).SP = s.SP := by
  simp only [push, writeByte] at hmem hsp
  refine ⟨?_, ?_⟩ <;>
    simp only [rts, pop, hmem, hsp, Function.update_apply] <;>
    first
    | omega
    | (split_ifs <;> first | rfl | (exfalso; omega))

lemma jsr_rts_spec (v : CpuState) (a : Nat) (hSP : v.SP < 256)
    (h1 : 1 ≤ v.PC) (h2 : v.PC ≤ 0x10000) :
    (stepRTS (jsr v a)).PC = v.PC ∧ (stepRTS (jsr v a)).SP = v.SP := by
  have hm := (fetch_mem (jsr v a)).trans (jsr_mem v a)
  have hs := (fetch_SP (jsr v a)).trans (jsr_SP_eq v a)
  obtain ⟨p1, p2⟩ := rts_spec ((fetchInstruction (jsr v a)).1) v
    (msb ((v.PC + 0x10000 - 1) &&& 0xFFFF)) (lsb ((v.PC + 0x10000 - 1) &&& 0xFFFF)) hSP hm hs
  rw [stepRTS_eq]
  refine ⟨?_, p2⟩
  rw [p1, Nat.mod_eq_of_lt (msb_lt _), Nat.mod_eq_of_lt (lsb_lt _), msb_lsb_recombine,
      and_mask16, and_mask16]
  omega

lemma and127 (x : Nat) : x &&& 127 = x % 128 := by
  have := Nat.and_pow_two_sub_one_eq_mod x 7; norm_num at this; exact this

lemma getReg13_eq (s : ViaState) :
    getReg s 13 = ((s.reg 13 &&& 127) ||| (if s.reg 13 &&& 127 ≠ 0 then 0x80 else 0x00)) &&& 0xFF := by
  unfold getReg
  rw [if_pos rfl]

lemma getReg14_eq (s : ViaState) : getReg s 14 = (s.reg 14 ||| 0x80) &&& 0xFF := by
  unfold getReg
  rw [if_neg (by decide : ¬(14:Nat) = 13), if_pos rfl]

lemma or128 (x : Nat) (hx : x < 128) : x ||| 128 = x + 128 := by
  have hlt : x < 2 ^ 7 := by
    have h7 : (2:Nat) ^ 7 = 128 := by norm_num
    rw [h7]
    exact hx
  have h := Nat.mul_add_lt_is_or hlt 1
  have h7 : (2:Nat) ^ 7 * 1 = 128 := by norm_num
  rw [h7] at h
  rw [Nat.lor_comm, ← h]
  omega

lemma getReg13_val (s : ViaState) :
    getReg s 13 = s.reg 13 % 128 + (if s.reg 13 % 128 ≠ 0 then 128 else 0) := by
  rw [getReg13_eq, and127]
  have hx : s.reg 13 % 128 < 128 := Nat.mod_lt _ (by norm_num)
  by_cases h : s.reg 13 % 128 ≠ 0
  · rw [if_pos h, or128 _ hx, and_mask8]
    omega
  · rw [if_neg h, Nat.or_zero, and_mask8]
    omega

lemma viaRead1_eq (s : ViaState) :
    viaRead s 1 0 = (((setIfr (setIfr s 0 false) 1 false).portA.getD 255) &&&
                       (0xFF ^^^ getReg s 3),
                     setIfr (setIfr s 0 false) 1 false) := rfl

lemma setIfr_portA (s : ViaState) (b : Nat) (st : Bool) : (setIfr s b st).portA = s.portA := rfl

lemma setIfr_inhibitT1 (s : ViaState) (b : Nat) (st : Bool) :
    (setIfr s b st).inhibitT1 = s.inhibitT1 := rfl

lemma setIfr_inhibitT2 (s : ViaState) (b : Nat) (st : Bool) :
    (setIfr s b st).inhibitT2 = s.inhibitT2 := rfl

lemma and255_twice (x : Nat) : x &&& 255 &&& 255 = x &&& 255 := by
  rw [Nat.and_assoc, Nat.and_self]

lemma setIfr_false_reg13 (s : ViaState) (b : Nat) :
    (setIfr s b false).reg 13 = getReg s 13 &&& (0xFF ^^^ (1 <<< b)) &&& 0xFF := by
  simp only [setIfr, setReg, (by decide : (13:Nat) &&& 0xF = 13), Bool.false_eq_true,
    if_false, ite_false, Nat.zero_shiftLeft, Nat.or_zero, Function.update_same]
  exact and255_twice _

lemma setIfr_reg_ne (s : ViaState) (b : Nat) (st : Bool) (j : Nat) (hj : j ≠ 13) :
    (setIfr s b st).reg j = s.reg j := by
  simp only [setIfr, setReg, (by decide : (13:Nat) &&& 0xF = 13)]
  exact Function.update_noteq hj _ _

lemma ifr_clear01 : ∀ g, g < 256 →
    ((((g % 128 + (if g % 128 ≠ 0 then 128 else 0)) &&& 0xFE &&& 0xFF) % 128 +
      (if ((g % 128 + (if g % 128 ≠ 0 then 128 else 0)) &&& 0xFE &&& 0xFF) % 128 ≠ 0
       then 128 else 0)) &&& 0xFD &&& 0xFF) &&& 0x03 = 0 ∧
    ((((g % 128 + (if g % 128 ≠ 0 then 128 else 0)) &&& 0xFE &&& 0xFF) % 128 +
      (if ((g % 128 + (if g % 128 ≠ 0 then 128 else 0)) &&& 0xFE &&& 0xFF) % 128 ≠ 0
       then 128 else 0)) &&& 0xFD &&& 0xFF) &&& 0x7C = g &&& 0x7C := by
  decide

lemma testBit_lt7_getReg13 (s : ViaState) (i : Nat) (hi : i < 7) :
    (getReg s 13).testBit i = (s.reg 13).testBit i := by
  rw [getReg13_val, Nat.testBit_to_div_mod, Nat.testBit_to_div_mod, decide_eq_decide]
  split_ifs with h <;> interval_cases i <;> (try norm_num) <;> omega

lemma testBit_lt7_getReg14 (s : ViaState) (i : Nat) (hi : i < 7) :
    (getReg s 14).testBit i = (s.reg 14).testBit i := by
  rw [getReg14_eq]
  simp only [Nat.testBit_land, Nat.testBit_lor]
  rw [(by norm_num : (0x80:Nat) = 2 ^ 7), Nat.testBit_two_pow,
      (by norm_num : (0xFF:Nat) = 2 ^ 8 - 1), Nat.testBit_two_pow_sub_one]
  have h1 : decide (7 = i) = false := by simp only [decide_eq_false_iff_not]; omega
  have h2 : decide (i < 8) = true := by simp only [decide_eq_true_eq]; omega
  rw [h1, h2, Bool.or_false, Bool.and_true]

lemma and_0x7F_eq (a b : Nat) (h : ∀ i, i < 7 → a.testBit i = b.testBit i) :
    a &&& 0x7F = b &&& 0x7F := by
  apply Nat.eq_of_testBit_eq
  intro i
  simp only [Nat.testBit_land]
  rw [(by norm_num : (0x7F:Nat) = 2 ^ 7 - 1), Nat.testBit_two_pow_sub_one]
  by_cases hi : i < 7
  · rw [h i hi]
  · have : decide (i < 7) = false := by simp only [decide_eq_false_iff_not]; omega
    rw [this, Bool.and_false, Bool.and_false]

lemma viaIrq_mask_eq (s : ViaState) :
    getReg s 13 &&& 0xFF &&& 0xFF &&& getReg s 14 &&& 0x7F =
      s.reg 13 &&& s.reg 14 &&& 0x7F := by
  apply and_0x7F_eq
  intro i hi
  simp only [Nat.testBit_land]
  rw [(by norm_num : (0xFF:Nat) = 2 ^ 8 - 1), Nat.testBit_two_pow_sub_one]
  have h8 : decide (i < 8) = true := by simp only [decide_eq_true_eq]; omega
  rw [h8, testBit_lt7_getReg13 s i hi, testBit_lt7_getReg14 s i hi]
  simp only [Bool.and_true]

lemma viaIrq_fst (s : ViaState) (hI1 : s.inhibitT1 = false) (hI2 : s.inhibitT2 = false) :
    (viaIrq s).1 =
      decide (getReg s 13 &&& 0xFF &&& 0xFF &&& getReg s 14 &&& 0x7F > 0) := by
  unfold viaIrq
  simp only [hI1, hI2, Bool.false_eq_true, ite_false, if_false]

lemma viaIrq_reduce (s : ViaState) (hI1 : s.inhibitT1 = false) (hI2 : s.inhibitT2 = false)
    (hT1 : getReg s 13 &&& 0xFF &&& 0xFF &&& getReg s 14 &&& 0x7F &&& 0x40 ≠ 0)
    (hT2 : getReg s 13 &&& 0xFF &&& 0xFF &&& getReg s 14 &&& 0x7F &&& 0x20 = 0) :
    viaIrq s = (decide (getReg s 13 &&& 0xFF &&& 0xFF &&& getReg s 14 &&& 0x7F > 0),
                setIfr { s with inhibitT1 := false } 6 false) := by
  unfold viaIrq
  simp only [hI1, hI2, Bool.false_eq_true, ite_false, if_false]
  rw [if_pos hT1, if_neg (not_ne_iff.mpr hT2)]


/-! ## Theorems -/



/-- C2: the bus word read at the top of memory does not wrap.  For every
backing array, `readWord 0xFFFF` looks up `readFunc[0x10000]`, which is
outside the handler array, so the read fails instead of taking its high
byte from address 0x0000 as the specification requires. -/
theorem c2_readWord_top_of_memory_fails (m : Mem) : readWord m 0xFFFF = none := rfl

/-- C6: with operand 0xFF and X = 0, the X,ind effective-address
computation reads its high byte from address 0x100, not from zero-page
address 0x00: the result is 0xAB34 (high byte 0xAB stored at 0x100)
although the byte at 0x00 is 0x12, so the zero-page wrap described by the
specification (result 0x1234) does not happen. -/
theorem c6_xind_high_byte_not_wrapped :
    getMemoryOffsetXInd c6state 0xFF = 0xAB34 ∧
    c6state.mem 0x100 = 0xAB ∧ c6state.mem 0x00 = 0x12 := by
  refine ⟨rfl, rfl, rfl⟩


/-- C3: binary-mode ADC sets the carry flag to bit 8 of `A + M + C`, the
overflow flag to `((A ^ r) & (M ^ r) & 0x80) != 0` with `r = A + M + C`,
the accumulator to `r & 0xFF`, and Z/N from the new accumulator; and
binary-mode SBC with operand M is the very same state transformer as
binary ADC with operand `M XOR 0xFF`. -/
theorem c3_adc_binary_flags_and_sbc (s : CpuState) (M : Nat)
    (hA : s.A < 256) (hM : M < 256) :
    ((adcNonBcd s M).A = (s.A + M + (if isSetC s.P then 1 else 0)) &&& 0xFF) ∧
    ((adcNonBcd s M).P.testBit 0 = (s.A + M + (if isSetC s.P then 1 else 0)).testBit 8) ∧
    ((adcNonBcd s M).P.testBit 6 =
       decide ((s.A ^^^ (s.A + M + (if isSetC s.P then 1 else 0))) &&&
               (M ^^^ (s.A + M + (if isSetC s.P then 1 else 0))) &&& 0x80 ≠ 0)) ∧
    ((adcNonBcd s M).P.testBit 1 = decide ((adcNonBcd s M).A = 0)) ∧
    ((adcNonBcd s M).P.testBit 7 = (adcNonBcd s M).A.testBit 7) ∧
    (sbcBinary s M = adcNonBcd s (M ^^^ 0xFF)) := by
  have hk : (if isSetC s.P then 1 else 0) < 2 := by split <;> norm_num
  set k := (if isSetC s.P then 1 else 0) with hkdef
  set r := s.A + M + k with hrdef
  have hbits := flag_chain_testBit s.P
    (((r &&& 0x100) >>> 8) ≠ 0)
    (((((extractBits M 0 6 + extractBits s.A 0 6 + k) &&& 0x80) >>> 7) ^^^
      ((r &&& 0x100) >>> 8)) ≠ 0)
    (((r &&& 0xFF) &&& 0xFF) = 0)
    ((((r &&& 0xFF) &&& 0xFF) &&& 0x80) ≠ 0)
  have hP := adcNonBcd_P s M
  have hAeq : (adcNonBcd s M).A = r &&& 0xFF := rfl
  have hmask : (r &&& 0xFF) &&& 0xFF = r &&& 0xFF := by
    rw [Nat.and_assoc, Nat.and_self]
  have hshift : (r &&& 0x100) >>> 8 = r / 256 % 2 := by
    have := and_two_pow_shift r 8; norm_num at this; exact this
  refine ⟨hAeq, ?_, ?_, ?_, ?_, rfl⟩
  · rw [hP, hbits.1, Nat.testBit_to_div_mod, hshift,
        show (2:Nat) ^ 8 = 256 from by norm_num]
    exact decide_eq_decide.mpr (by omega)
  · rw [hP, hbits.2.1]
    refine decide_eq_decide.mpr ?_
    have hv := adc_v_equiv s.A M k hA hM hk
    rw [extract06_eq_mod, extract06_eq_mod]
    norm_num at hv ⊢
    exact hv
  · rw [hP, hbits.2.2.1, hAeq, hmask]
  · rw [hP, hbits.2.2.2, hAeq, hmask]
    have h7 : ((r &&& 0xFF) &&& 128 ≠ 0) ↔ ((r &&& 0xFF).testBit 7 = true) := by
      have h := and_two_pow_ne_zero (r &&& 0xFF) 7
      rw [show (2:Nat) ^ 7 = 128 from by norm_num] at h
      exact h
    rw [decide_eq_decide.mpr h7]
    simp
    infer_instance

/-- Witness for C3 at the concrete S2 state (A = 0x50, M = 0x50, carry
clear): the hypotheses hold and the accumulator conclusion evaluates. -/
theorem c3_adc_witness :
    c3state.A < 256 ∧ (0x50 : Nat) < 256 ∧
    (adcNonBcd c3state 0x50).A =
      (c3state.A + 0x50 + (if isSetC c3state.P then 1 else 0)) &&& 0xFF :=
  ⟨by decide, by norm_num,
   (c3_adc_binary_flags_and_sbc c3state 0x50 (by decide) (by norm_num)).1⟩

/-- C1 (amended): on entering cycle() with cycles_remaining == 0, a
pending NMI is always serviced and cleared (regardless of the I flag) and
the final PC is loaded from the NMI vector 0xFFFA; a pending IRQ is
serviced and cleared whenever the I flag is clear — also when an NMI is
pending, in which case the IRQ is serviced first and both interrupt
frames are pushed (SP drops by 6); with nothing to service the state is
unchanged. -/
theorem c1_amended (s : CpuState) (hSP : s.SP < 256) :
    (s.requiresNmi = true →
       (interruptDispatch s).requiresNmi = false ∧
       (interruptDispatch s).PC = s.mem 0xFFFA + ((s.mem 0xFFFB) <<< 8)) ∧
    (isSetI s.P = false → s.requiresIrq = true →
       (interruptDispatch s).requiresIrq = false ∧
       (s.requiresNmi = true → (interruptDispatch s).SP = (s.SP + 250) % 256)) ∧
    (((!(isSetI s.P)) && s.requiresIrq) = false → s.requiresNmi = false →
       interruptDispatch s = s) := by
  cases hI : isSetI s.P <;> cases hR : s.requiresIrq <;> cases hN : s.requiresNmi
  case false.true.true =>
    have hd := dispatch_eq_both s hI hR hN
    have h1 := irq_facts s hSP
    have hSP1 : ({ irq s with requiresIrq := false } : CpuState).SP < 256 := by
      dsimp only
      rw [h1.2.2.2.1]
      exact Nat.mod_lt _ (by norm_num)
    have h2 := nmi_facts { irq s with requiresIrq := false } hSP1
    dsimp only at h2
    refine ⟨fun _ => ⟨?_, ?_⟩, fun _ _ => ⟨?_, fun _ => ?_⟩, by simp [hN]⟩
    · rw [hd]
    · rw [hd]
      dsimp only
      rw [h2.1, h1.2.2.2.2 0xFFFA (by norm_num), h1.2.2.2.2 0xFFFB (by norm_num)]
    · rw [hd]
      dsimp only
      rw [h2.2.1]
    · rw [hd]
      dsimp only
      rw [h2.2.2.2.1, h1.2.2.2.1]
      omega
  case false.true.false =>
    have hd := dispatch_eq_irq s hI hR hN
    have h1 := irq_facts s hSP
    refine ⟨by simp [hN], fun _ _ => ⟨?_, by simp [hN]⟩, by simp [hR]⟩
    rw [hd]
  case false.false.true =>
    have hd := dispatch_eq_nmi s (by simp [hI, hR]) hN
    have h2 := nmi_facts s hSP
    refine ⟨fun _ => ⟨?_, ?_⟩, by simp [hR], by simp [hN]⟩
    · rw [hd]
    · rw [hd]
      dsimp only
      rw [h2.1]
  case true.false.true =>
    have hd := dispatch_eq_nmi s (by simp [hI, hR]) hN
    have h2 := nmi_facts s hSP
    refine ⟨fun _ => ⟨?_, ?_⟩, by simp [hI], by simp [hN]⟩
    · rw [hd]
    · rw [hd]
      dsimp only
      rw [h2.1]
  case true.true.true =>
    have hd := dispatch_eq_nmi s (by simp [hI, hR]) hN
    have h2 := nmi_facts s hSP
    refine ⟨fun _ => ⟨?_, ?_⟩, by simp [hI], by simp [hN]⟩
    · rw [hd]
    · rw [hd]
      dsimp only
      rw [h2.1]
  case false.false.false =>
    exact ⟨by simp [hN], by simp [hR], fun _ _ => dispatch_eq_none s (by simp [hR]) hN⟩
  case true.false.false =>
    exact ⟨by simp [hN], by simp [hI], fun _ _ => dispatch_eq_none s (by simp [hR]) hN⟩
  case true.true.false =>
    exact ⟨by simp [hN], by simp [hI], fun _ _ => dispatch_eq_none s (by simp [hI]) hN⟩

/-- C1 counterexample: in the concrete state with both interrupts
pending and I clear, the code also services the IRQ — requiresIrq is
cleared and SP drops by 6 (0xFF to 0xF9) — where the claim says only the
NMI is serviced in that entry.  (The final PC is indeed the NMI vector.) -/
theorem c1_counterexample :
    c1state.requiresIrq = true ∧ c1state.requiresNmi = true ∧ isSetI c1state.P = false ∧
    (interruptDispatch c1state).requiresIrq = false ∧
    (interruptDispatch c1state).SP = 0xF9 ∧
    (interruptDispatch c1state).PC = 0x1234 := by
  refine ⟨rfl, rfl, by decide, rfl, by decide, by decide⟩

/-- Witness for C1 at the concrete both-pending state. -/
theorem c1_witness :
    c1state.SP < 256 ∧ (interruptDispatch c1state).requiresNmi = false :=
  ⟨by decide, ((c1_amended c1state (by decide)).1 rfl).1⟩



/-- C4: interrupt/RTI round trip.  For every CPU state (in-range SP, P,
PC), servicing an IRQ or an NMI and then executing RTI on the untouched
stack restores A, X, Y, P, PC and SP exactly — but the service routines
push the raw P byte (bit 5 is NOT forced set, contrary to the claim), and
RTI restores the full pulled byte; consequently after BRK + RTI the
status byte is `P ||| 0x30`, not the pre-interrupt P, while A, X, Y, SP
are restored and PC is the pushed return address `(PC + 1) &&& 0xFFFF`. -/
theorem c4_amended (s : CpuState) (hSP : s.SP < 256) (hP : s.P < 256) (hPC : s.PC < 0x10000) :
    ((stepRTI (irq s)).A = s.A ∧ (stepRTI (irq s)).X = s.X ∧ (stepRTI (irq s)).Y = s.Y ∧
     (stepRTI (irq s)).P = s.P ∧ (stepRTI (irq s)).PC = s.PC ∧ (stepRTI (irq s)).SP = s.SP) ∧
    ((stepRTI (nmi s)).A = s.A ∧ (stepRTI (nmi s)).X = s.X ∧ (stepRTI (nmi s)).Y = s.Y ∧
     (stepRTI (nmi s)).P = s.P ∧ (stepRTI (nmi s)).PC = s.PC ∧ (stepRTI (nmi s)).SP = s.SP) ∧
    ((stepRTI (brk s)).A = s.A ∧ (stepRTI (brk s)).X = s.X ∧ (stepRTI (brk s)).Y = s.Y ∧
     (stepRTI (brk s)).P = (s.P ||| 0x30) ∧
     (stepRTI (brk s)).PC = (s.PC + 1) &&& 0xFFFF ∧ (stepRTI (brk s)).SP = s.SP) := by
  have hmask : s.PC &&& 0xFFFF = s.PC := by rw [and_mask16]; omega
  obtain ⟨a1, a2, a3, a4, a5, a6⟩ :=
    service_rti s (irq s) s.P s.PC hSP (irq_mem s) (irq_SP_eq s)
      (irq_AXY s).1 (irq_AXY s).2.1 (irq_AXY s).2.2
  obtain ⟨b1, b2, b3, b4, b5, b6⟩ :=
    service_rti s (nmi s) s.P s.PC hSP (nmi_mem s) (nmi_SP_eq s)
      (nmi_AXY s).1 (nmi_AXY s).2.1 (nmi_AXY s).2.2
  obtain ⟨c1, c2, c3, c4, c5, c6⟩ :=
    service_rti s (brk s) (s.P ||| 0x10 ||| 0x20) (s.PC + 1) hSP (brk_mem s) (brk_SP_eq s)
      (brk_AXY s).1 (brk_AXY s).2.1 (brk_AXY s).2.2
  have h1632 : (0x10 ||| 0x20 : Nat) = 0x30 := by decide
  have hor : s.P ||| 0x10 ||| 0x20 = s.P ||| 0x30 := by
    rw [Nat.or_assoc, h1632]
  have hor_lt : s.P ||| 0x30 < 256 := by
    have h4 : (256:Nat) = 2 ^ 8 := by norm_num
    rw [h4]
    exact Nat.or_lt_two_pow (lt_of_lt_of_le hP (by norm_num)) (by norm_num)
  refine ⟨⟨a1, a2, a3, ?_, ?_, a6⟩, ⟨b1, b2, b3, ?_, ?_, b6⟩, ⟨c1, c2, c3, ?_, c5, c6⟩⟩
  · rw [a4]; exact Nat.mod_eq_of_lt hP
  · rw [a5, hmask]
  · rw [b4]; exact Nat.mod_eq_of_lt hP
  · rw [b5, hmask]
  · rw [c4, hor]; exact Nat.mod_eq_of_lt hor_lt

/-- C4 counterexample: from a state with P = 0, BRK followed by RTI ends
with P = 0x30, not the pre-interrupt value 0, because brk pushes
`P | 0x10 | 0x20` and rti restores the full pulled byte; moreover the
IRQ service pushes the raw status byte — the byte written to the stack at
0x1FD is 0, with bit 5 clear, contradicting "bit 5 always set". -/
theorem c4_counterexample :
    c4state.P = 0 ∧ (stepRTI (brk c4state)).P = 0x30 ∧ (irq c4state).mem 0x1FD = 0 := by
  refine ⟨rfl, by decide, by decide⟩

/-- C4 witness: the round-trip theorem applied at the concrete state. -/
theorem c4_witness :
    c4state.SP < 256 ∧ c4state.P < 256 ∧ c4state.PC < 0x10000 ∧
    (stepRTI (irq c4state)).PC = c4state.PC :=
  ⟨by decide, by decide, by decide,
   (c4_amended c4state (by decide) (by decide) (by decide)).1.2.2.2.2.1⟩


/-- C5: JSR/RTS round trip.  For every CPU state whose PC is at most
0xFFFC (so the 3-byte JSR instruction and its operand word lie inside the
address space) and whose SP is a byte, executing JSR followed by RTS on
the untouched stack ends with PC at the instruction after the JSR
(`PC + 3`) and SP restored.  The bound on PC is necessary: from
PC = 0xFFFE the operand word read runs past the end of the bus and the
emulator fails instead of wrapping. -/
theorem c5_amended (s : CpuState) (hSP : s.SP < 256) (hPC : s.PC ≤ 0xFFFC) :
    ∃ s1, stepJSR s = some s1 ∧ (stepRTS s1).PC = s.PC + 3 ∧ (stepRTS s1).SP = s.SP := by
  have h1 : (s.PC + 1) &&& 0xFFFF = s.PC + 1 := by rw [and_mask16]; omega
  have h2 : s.PC + 1 + 1 = s.PC + 2 := by omega
  have hread : readWord ((fetchInstruction s).1).mem ((fetchInstruction s).1).PC
      = some (s.mem (s.PC + 1) + s.mem (s.PC + 2) <<< 8) := by
    rw [fetch_mem, fetch_PC, h1, readWord_in_range _ _ (by simp only [busSize]; omega), h2]
  have hvSP : ({ (fetchInstruction s).1 with
                 PC := (((fetchInstruction s).1).PC + 2) &&& 0xFFFF } : CpuState).SP = s.SP := by
    dsimp only
    rw [fetch_SP]
  have hvPC : ({ (fetchInstruction s).1 with
                 PC := (((fetchInstruction s).1).PC + 2) &&& 0xFFFF } : CpuState).PC
      = s.PC + 3 := by
    dsimp only
    rw [fetch_PC, h1, and_mask16]
    omega
  obtain ⟨r1, r2⟩ := jsr_rts_spec
    { (fetchInstruction s).1 with PC := (((fetchInstruction s).1).PC + 2) &&& 0xFFFF }
    (s.mem (s.PC + 1) + s.mem (s.PC + 2) <<< 8)
    (by rw [hvSP]; exact hSP) (by rw [hvPC]; omega) (by rw [hvPC]; omega)
  refine ⟨_, stepJSR_some s _ hread, ?_, ?_⟩
  · rw [r1]
    exact hvPC
  · rw [r2]
    exact hvSP

/-- C5 counterexample: from PC = 0xFFFE the JSR step fails — the operand
word read indexes the bus handler array past its end — so the claimed
round trip does not exist for every starting PC. -/
theorem c5_counterexample : c5state.PC = 0xFFFE ∧ stepJSR c5state = none :=
  ⟨rfl, rfl⟩

/-- C5 witness: the round-trip theorem applied at a concrete in-range
state. -/
theorem c5_witness :
    c1state.SP < 256 ∧ c1state.PC ≤ 0xFFFC ∧
    ∃ s1, stepJSR c1state = some s1 ∧
      (stepRTS s1).PC = c1state.PC + 3 ∧ (stepRTS s1).SP = c1state.SP :=
  ⟨by decide, by decide, c5_amended c1state (by decide) (by decide)⟩


/-- C7: the IFR read (register 13) returns bits 0-6 exactly as stored,
but its derived bit 7 is `(IFR & 0x7F) != 0` — the IER is NOT consulted,
contrary to the claim's `(IFR & IER & 0x7F) != 0`; the bus read of
register 13 returns this value with no state change. -/
theorem c7_amended (s : ViaState) :
    (getReg s 13) &&& 0x7F = s.reg 13 &&& 0x7F ∧
    (getReg s 13).testBit 7 = decide (s.reg 13 &&& 0x7F ≠ 0) ∧
    viaRead s 13 0 = (getReg s 13, s) := by
  refine ⟨?_, ?_, rfl⟩
  · rw [getReg13_val, and127, and127]
    split_ifs <;> omega
  · rw [getReg13_val, Nat.testBit_to_div_mod, and127, decide_eq_decide]
    have h27 : (2:Nat) ^ 7 = 128 := by norm_num
    rw [h27]
    split_ifs with h <;> omega

/-- C7 counterexample: with IFR = 0x01 and IER = 0 the stored-and-enabled
mask `IFR & IER & 0x7F` is 0, yet the IFR read has bit 7 set. -/
theorem c7_counterexample :
    c7via.reg 13 = 0x01 ∧ c7via.reg 14 = 0 ∧
    c7via.reg 13 &&& c7via.reg 14 &&& 0x7F = 0 ∧
    (getReg c7via 13).testBit 7 = true := by
  refine ⟨rfl, rfl, by decide, by decide⟩

/-- C8: reading register R1 (port A) returns only the input pins masked
by `~DDRA` — the `ORA & DDRA` output-register contribution used for port
B is missing — and clears IFR bits 0 and 1 (CA2/CA1) while preserving
IFR bits 2-6 and every other register. -/
theorem c8_amended (s : ViaState) (h13 : s.reg 13 < 256) :
    (viaRead s 1 0).1 = (s.portA.getD 255) &&& (0xFF ^^^ getReg s 3) ∧
    (viaRead s 1 0).2.reg 13 &&& 0x03 = 0 ∧
    (viaRead s 1 0).2.reg 13 &&& 0x7C = s.reg 13 &&& 0x7C ∧
    (∀ j, j ≠ 13 → (viaRead s 1 0).2.reg j = s.reg j) := by
  have e13 : (viaRead s 1 0).2.reg 13 =
      ((((s.reg 13 % 128 + (if s.reg 13 % 128 ≠ 0 then 128 else 0)) &&& 0xFE &&& 0xFF) % 128 +
        (if ((s.reg 13 % 128 + (if s.reg 13 % 128 ≠ 0 then 128 else 0)) &&& 0xFE &&& 0xFF) % 128 ≠ 0
         then 128 else 0)) &&& 0xFD &&& 0xFF) := by
    rw [viaRead1_eq]
    dsimp only
    rw [setIfr_false_reg13, getReg13_val, setIfr_false_reg13, getReg13_val,
        (by decide : (0xFF ^^^ (1 <<< 0) : Nat) = 0xFE),
        (by decide : (0xFF ^^^ (1 <<< 1) : Nat) = 0xFD)]
  obtain ⟨q1, q2⟩ := ifr_clear01 (s.reg 13) h13
  refine ⟨?_, ?_, ?_, ?_⟩
  · rw [viaRead1_eq]
    dsimp only
    rw [setIfr_portA, setIfr_portA]
  · rw [e13]
    exact q1
  · rw [e13]
    exact q2
  · intro j hj
    rw [viaRead1_eq]
    dsimp only
    rw [setIfr_reg_ne _ _ _ _ hj, setIfr_reg_ne _ _ _ _ hj]

/-- C8 counterexample: with DDRA = 0xFF, ORA = 0xAB and external port A
value 0xFF, the R1 read returns 0, not the 0xAB that the port-B mixing
rule `(pins & ~DDRA) | (ORA & DDRA)` would give. -/
theorem c8_counterexample :
    c8via.portA = some 0xFF ∧ getReg c8via 3 = 0xFF ∧ getReg c8via 1 = 0xAB ∧
    (viaRead c8via 1 0).1 = 0 := by
  refine ⟨rfl, by decide, by decide, by decide⟩

/-- C8 witness: the R1-read theorem applied at the concrete state. -/
theorem c8_witness :
    c8via.reg 13 < 256 ∧
    (viaRead c8via 1 0).1 = (c8via.portA.getD 255) &&& (0xFF ^^^ getReg c8via 3) :=
  ⟨by decide, (c8_amended c8via (by decide)).1⟩

/-- C10: evaluating the irq getter is indeed not side-effect free — with
the timer inhibits clear, if T1 is the ONLY pending-and-enabled interrupt
(`IFR & IER & 0x7F = 0x40`) the getter returns true, clears IFR bit 6,
and a second immediate evaluation returns false.  The extra "only"
condition is needed: with any other pending enabled bit the second
evaluation still returns true. -/
theorem c10_amended (s : ViaState)
    (hI1 : s.inhibitT1 = false) (hI2 : s.inhibitT2 = false)
    (hOnly : s.reg 13 &&& s.reg 14 &&& 0x7F = 0x40) :
    (viaIrq s).1 = true ∧
    ((viaIrq s).2.reg 13) &&& 0x40 = 0 ∧
    (viaIrq (viaIrq s).2).1 = false := by
  have hmask := viaIrq_mask_eq s
  have hT1 : getReg s 13 &&& 0xFF &&& 0xFF &&& getReg s 14 &&& 0x7F &&& 0x40 ≠ 0 := by
    rw [hmask, hOnly]
    decide
  have hT2 : getReg s 13 &&& 0xFF &&& 0xFF &&& getReg s 14 &&& 0x7F &&& 0x20 = 0 := by
    rw [hmask, hOnly]
    decide
  have hred := viaIrq_reduce s hI1 hI2 hT1 hT2
  have hfst1 : (viaIrq s).1 = true := by
    rw [hred]
    dsimp only
    rw [decide_eq_true_eq, hmask, hOnly]
    norm_num
  have hsnd : (viaIrq s).2 = setIfr { s with inhibitT1 := false } 6 false := by
    rw [hred]
  have h13c : (viaIrq s).2.reg 13 &&& 0x40 = 0 := by
    rw [hsnd, setIfr_false_reg13, Nat.and_assoc, Nat.and_assoc,
        (by decide : ((0xFF ^^^ (1 <<< 6)) &&& (0xFF &&& 0x40) : Nat) = 0), Nat.and_zero]
  refine ⟨hfst1, h13c, ?_⟩
  have hI1b : (viaIrq s).2.inhibitT1 = false := by
    rw [hsnd, setIfr_inhibitT1]
  have hI2b : (viaIrq s).2.inhibitT2 = false := by
    rw [hsnd, setIfr_inhibitT2]
    exact hI2
  rw [viaIrq_fst _ hI1b hI2b, decide_eq_false_iff_not]
  intro hgt
  have hz : getReg (viaIrq s).2 13 &&& 0xFF &&& 0xFF &&& getReg (viaIrq s).2 14 &&& 0x7F
      = 0 := by
    have h14b : (viaIrq s).2.reg 14 = s.reg 14 := by
      rw [hsnd, setIfr_reg_ne _ _ _ _ (by norm_num)]
    have hstep : ∀ i, i < 7 →
        ((viaIrq s).2.reg 13 &&& (viaIrq s).2.reg 14).testBit i = (0:Nat).testBit i := by
      intro i hi
      simp only [Nat.testBit_land, Nat.testBit_zero, Nat.zero_testBit]
      by_cases h6 : i = 6
      · subst h6
        have : (viaIrq s).2.reg 13 &&& 0x40 = 0 := h13c
        have hb : ((viaIrq s).2.reg 13).testBit 6 = false := by
          have := congrArg (fun x => x.testBit 6) this
          simp only [Nat.testBit_land] at this
          rw [(by norm_num : (0x40:Nat) = 2 ^ 6), Nat.testBit_two_pow] at this
          simp only [decide_eq_true_eq, Nat.zero_testBit] at this
          simpa using this
        rw [hb, Bool.false_and]
      · have := congrArg (fun x => x.testBit i) hOnly
        simp only [Nat.testBit_land] at this
        rw [(by norm_num : (0x7F:Nat) = 2 ^ 7 - 1), Nat.testBit_two_pow_sub_one,
            (by norm_num : (0x40:Nat) = 2 ^ 6), Nat.testBit_two_pow] at this
        have hd1 : decide (i < 7) = true := by simp only [decide_eq_true_eq]; omega
        have hd2 : decide (6 = i) = false := by simp only [decide_eq_false_iff_not]; omega
        rw [hd1, hd2, Bool.and_true] at this
        have h13i : ((viaIrq s).2.reg 13).testBit i = (s.reg 13).testBit i := by
          rw [hsnd, setIfr_false_reg13]
          simp only [Nat.testBit_land]
          rw [(by decide : (0xFF ^^^ (1 <<< 6) : Nat) = 0xBF),
              (by norm_num : (0xFF:Nat) = 2 ^ 8 - 1), Nat.testBit_two_pow_sub_one]
          have hd8 : decide (i < 8) = true := by simp only [decide_eq_true_eq]; omega
          have hbf : (0xBF : Nat).testBit i = true := by
            interval_cases i <;> first | decide | (exact absurd rfl h6)
          rw [hd8, hbf, Bool.and_true, Bool.and_true]
          have hg13 : getReg { s with inhibitT1 := false } 13 = getReg s 13 := rfl
          rw [hg13, testBit_lt7_getReg13 s i hi]
        rw [h13i, h14b, this]
    have := and_0x7F_eq ((viaIrq s).2.reg 13 &&& (viaIrq s).2.reg 14) 0
      (by intro i hi; exact hstep i hi)
    rw [Nat.zero_and] at this
    calc getReg (viaIrq s).2 13 &&& 0xFF &&& 0xFF &&& getReg (viaIrq s).2 14 &&& 0x7F
        = (viaIrq s).2.reg 13 &&& (viaIrq s).2.reg 14 &&& 0x7F := viaIrq_mask_eq _
      _ = 0 := this
  rw [hz] at hgt
  exact Nat.lt_irrefl 0 hgt

/-- C10 counterexample: with IFR = IER = 0x42 (T1 and CA1 both pending
and enabled) the first irq evaluation returns true and clears bit 6, but
the second evaluation still returns true because CA1 remains pending —
the claim's "second immediate evaluation returns false" is wrong. -/
theorem c10_counterexample :
    c10via2.reg 13 = 0x42 ∧ c10via2.reg 14 = 0x42 ∧
    c10via2.inhibitT1 = false ∧ c10via2.inhibitT2 = false ∧
    (viaIrq c10via2).1 = true ∧
    ((viaIrq c10via2).2.reg 13) &&& 0x40 = 0 ∧
    (viaIrq (viaIrq c10via2).2).1 = true := by
  refine ⟨rfl, rfl, rfl, rfl, by decide, by decide, by decide⟩

/-- C10 witness: the amended theorem applied at the concrete only-T1
state. -/
theorem c10_witness :
    c10via.inhibitT1 = false ∧ c10via.inhibitT2 = false ∧
    c10via.reg 13 &&& c10via.reg 14 &&& 0x7F = 0x40 ∧
    (viaIrq c10via).1 = true :=
  ⟨rfl, rfl, by decide, (c10_amended c10via rfl rfl (by decide)).1⟩


/-- C9: on every blanking cycle (horizontal or vertical) the VIC writes
no framebuffer word and the framebuffer is unchanged; on every
NON-blanking cycle exactly four pixels are written at consecutive
indices starting at `rasterLine * screenWidth + rowPixel`.  The claim's
"inside the text matrix" trigger for the four-pixel clause is wrong:
blanking wins — a blanking cycle whose computed column and row happen to
lie inside the matrix writes nothing. -/
theorem c9_amended (s : VicState) :
    ((isRowBlanking s || isLineBlanking s) = true →
       vicPixelWrites s = [] ∧ (vicCycle s).data32 = s.data32) ∧
    ((isRowBlanking s || isLineBlanking s) = false →
       (vicPixelWrites s).map Prod.fst =
         [rasterLine s * (screenWidth s : Int) + (s.rowPixel : Int),
          rasterLine s * (screenWidth s : Int) + (s.rowPixel : Int) + 1,
          rasterLine s * (screenWidth s : Int) + (s.rowPixel : Int) + 2,
          rasterLine s * (screenWidth s : Int) + (s.rowPixel : Int) + 3]) := by
  constructor
  · intro h
    have hw : vicPixelWrites s = [] := by
      unfold vicPixelWrites
      rw [if_pos h]
    refine ⟨hw, ?_⟩
    unfold vicCycle
    rw [hw]
    simp only [List.foldl_nil, List.length_nil]
    split_ifs <;> rfl
  · intro hb
    have hb2 : ¬((isRowBlanking s || isLineBlanking s) = true) := by
      rw [hb]
      exact Bool.false_ne_true
    unfold vicPixelWrites
    rw [if_neg hb2]
    dsimp only
    split_ifs <;> rfl

/-- C9 counterexample: the vertical-blanking cycle 1846 computes column
4 and row 3 — inside the 22x23 text matrix — yet writes no pixel and
leaves the framebuffer untouched. -/
theorem c9_counterexample :
    isTextArea c9vic = true ∧ isLineBlanking c9vic = true ∧
    vicPixelWrites c9vic = [] ∧ (vicCycle c9vic).data32 = c9vic.data32 := by
  refine ⟨by decide, by decide, rfl, rfl⟩

/-- C9 witness: the amended theorem's non-blanking clause applied at the
concrete visible text-area cycle. -/
theorem c9_witness :
    (isRowBlanking c9vicN || isLineBlanking c9vicN) = false ∧
    isTextArea c9vicN = true ∧
    (vicPixelWrites c9vicN).map Prod.fst =
      [rasterLine c9vicN * (screenWidth c9vicN : Int) + (c9vicN.rowPixel : Int),
       rasterLine c9vicN * (screenWidth c9vicN : Int) + (c9vicN.rowPixel : Int) + 1,
       rasterLine c9vicN * (screenWidth c9vicN : Int) + (c9vicN.rowPixel : Int) + 2,
       rasterLine c9vicN * (screenWidth c9vicN : Int) + (c9vicN.rowPixel : Int) + 3] :=
  ⟨by decide, by decide, (c9_amended c9vicN).2 (by decide)⟩

end Vic20
